import Mathlib

/-!
Verification of the FastAPI JWT authentication service against its
specification.  The definitions below are a shallow embedding of the
Python sources: `app/api/auth.py` (token issuance/verification and the
route handlers), `app/models/user.py` and `app/models/token.py` (the
persisted entities), `app/schemas` (response shapes), `app/core/config.py`
and `app/main.py` (settings and the CORS wiring of the entry point).

Time is modelled as seconds since an arbitrary epoch (`Nat`); a
`timedelta(minutes=m)` is `m * 60` seconds and `timedelta(days=d)` is
`d * 86400` seconds.  A JWT is modelled structurally: `TokenStr.signed`
carries the decoded payload together with the key and algorithm it was
signed with, `TokenStr.malformed` stands for a string that is not a JWT
at all; `jwt.decode` then fails exactly when the key/algorithm disagree
(invalid signature), the token is not a JWT, or the `exp` claim has
passed, matching python-jose's behaviour.
-/

namespace AuthService

/-- Embedding of `Settings` (`app/core/config.py`), restricted to the
fields the verified operations read. -/
structure Settings where
  SECRET_KEY : String
  ALGORITHM : String
  ACCESS_TOKEN_EXPIRE_MINUTES : Nat
  REFRESH_TOKEN_EXPIRE_DAYS : Nat
  BACKEND_CORS_ORIGINS : String
deriving DecidableEq, Repr

/-- Decoded JWT claim set: subject, type discriminator, expiry and
issued-at, as written by `create_access_token` / `create_refresh_token`. -/
structure JwtPayload where
  sub : Option String
  type : Option String
  exp : Nat
  iat : Nat
deriving DecidableEq, Repr

/-- An encoded token string.  `signed payload key alg` is the JWT obtained
by `jwt.encode(payload, key, algorithm=alg)`; `malformed raw` is any string
that is not a well-formed JWT. -/
inductive TokenStr where
  | signed (payload : JwtPayload) (key : String) (alg : String)
  | malformed (raw : String)
deriving DecidableEq, Repr

/-- The failure modes of `jose.jwt.decode`. -/
inductive JwtError where
  | invalidSignature
  | expired
  | malformedToken
deriving DecidableEq, Repr

/-- Message text python-jose attaches to each decode failure. -/
def jwtErrorMessage : JwtError → String
  | .invalidSignature => "Signature verification failed."
  | .expired => "Signature has expired."
  | .malformedToken => "Not enough segments"

/-- Embedding of `jose.jwt.decode(token, key, algorithms=[alg])` at time
`now`: signature (key and algorithm) is checked first, then the `exp`
claim (expired when `exp < now`, zero leeway). -/
def jwt_decode (t : TokenStr) (key alg : String) (now : Nat) :
    Except JwtError JwtPayload :=
  match t with
  | .malformed _ => .error .malformedToken
  | .signed p k a =>
    if k == key && a == alg then
      if p.exp < now then .error .expired else .ok p
    else .error .invalidSignature

/-- Embedding of the `AuthError` exception of `app/api/auth.py`; the
`status_code` defaults to 401 as in the Python class. -/
structure AuthError where
  message : String
  status_code : Nat := 401
deriving DecidableEq, Repr

/-- Embedding of the `TokenData` schema (`app/schemas/token.py`). -/
structure TokenData where
  email : Option String := none
  user_id : Option Nat := none
  token_type : Option String := none
deriving DecidableEq, Repr

/-- Render an optional claim the way Python's f-string renders it. -/
def optClaimStr : Option String → String
  | none => "None"
  | some s => s

/-- Embedding of `create_access_token(data, expires_delta)`
(`app/api/auth.py` lines 29-42).  The call sites only ever populate the
`"sub"` key of `data`, and the function overwrites `exp`, `iat` and
`type`, so `data` is modelled by its subject claim.  `expires_delta` is
in seconds; when absent the lifetime is
`ACCESS_TOKEN_EXPIRE_MINUTES` minutes. -/
def create_access_token (data_sub : Option String)
    (expires_delta : Option Nat) (s : Settings) (now : Nat) : TokenStr :=
  let expire := match expires_delta with
    | some d => now + d
    | none => now + s.ACCESS_TOKEN_EXPIRE_MINUTES * 60
  .signed { sub := data_sub, type := some "access", exp := expire, iat := now }
    s.SECRET_KEY s.ALGORITHM

/-- Embedding of `create_refresh_token(data)` (`app/api/auth.py` lines
45-55): lifetime `REFRESH_TOKEN_EXPIRE_DAYS` days, type `"refresh"`. -/
def create_refresh_token (data_sub : Option String) (s : Settings)
    (now : Nat) : TokenStr :=
  .signed { sub := data_sub, type := some "refresh",
            exp := now + s.REFRESH_TOKEN_EXPIRE_DAYS * 86400, iat := now }
    s.SECRET_KEY s.ALGORITHM

/-- Embedding of `verify_token(token, expected_type)` (`app/api/auth.py`
lines 58-75): decode (signature and expiry), then the type-claim check,
then the subject-presence check; a `JWTError` from decoding is wrapped
into an `AuthError`, the explicit `raise AuthError`s escape the
`except JWTError` clause unchanged. -/
def verify_token (token : TokenStr) (expected_type : String) (s : Settings)
    (now : Nat) : Except AuthError TokenData :=
  match jwt_decode token s.SECRET_KEY s.ALGORITHM now with
  | .error e => .error { message := "Token validation failed: " ++ jwtErrorMessage e }
  | .ok payload =>
    if payload.type != some expected_type then
      .error { message := "Invalid token type. Expected " ++ expected_type ++
                          ", got " ++ optClaimStr payload.type }
    else
      match payload.sub with
      | none => .error { message := "Token missing subject" }
      | some email => .ok { email := some email, token_type := payload.type }

/-- The subject claim carried by an encoded token (none for a malformed
string). -/
def TokenStr.subClaim : TokenStr → Option String
  | .signed p _ _ => p.sub
  | .malformed _ => none

/-- Embedding of the `User` entity (`app/models/user.py`, table `users`).
Timestamps are seconds since the epoch; `updated_at` is nullable in the
table definition. -/
structure Account where
  id : Nat
  email : String
  name : String
  hashed_password : String
  is_active : Bool
  created_at : Nat
  updated_at : Option Nat
deriving DecidableEq, Repr

/-- The persisted state: the `users` table and the `blacklisted_tokens`
table (`app/models/token.py`; only the unique `token` column is
behaviourally relevant, so the blacklist is the list of stored token
strings). -/
structure DB where
  users : List Account
  blacklisted_tokens : List TokenStr
deriving DecidableEq, Repr

/-- Embedding of `db.query(User).filter(User.email == email).first()`. -/
def DB.findUserByEmail (db : DB) (email : String) : Option Account :=
  db.users.find? (fun u => u.email == email)

/-- Embedding of `db.query(BlacklistedToken).filter(BlacklistedToken.token
== token).first()` being non-null. -/
def DB.isBlacklisted (db : DB) (token : TokenStr) : Bool :=
  db.blacklisted_tokens.any (fun t => t == token)

/-- Bcrypt (`pwd_context.hash`, `app/models/user.py`) modelled as a
deterministic injective tagging function; no claim under verification
depends on the hash's internal structure, only on whether
`verify_password` accepts or rejects. -/
def get_password_hash (password : String) : String :=
  "$2b$12$" ++ password

/-- Embedding of `User.verify_password` (`pwd_context.verify`). -/
def verify_password (plain_password hashed_password : String) : Bool :=
  hashed_password == get_password_hash plain_password

/-- Embedding of FastAPI's `HTTPException` as raised by the route layer;
`www_authenticate_bearer` records whether the exception carried the
`headers={"WWW-Authenticate": "Bearer"}` argument. -/
structure HTTPException where
  status_code : Nat
  detail : String
  www_authenticate_bearer : Bool
deriving DecidableEq, Repr

/-- Embedding of the `Token` response schema (`app/schemas/token.py`). -/
structure Token where
  access_token : TokenStr
  token_type : String := "bearer"
  refresh_token : Option TokenStr := none
  expires_in : Option Nat := none
deriving DecidableEq, Repr

/-- Embedding of the `UserCreate` request schema (`app/schemas/user.py`). -/
structure UserCreate where
  email : String
  name : String
  password : String
deriving DecidableEq, Repr

/-- Embedding of `get_current_user` (`app/api/auth.py` lines 78-109):
blacklist check, then `verify_token(token, "access")`, then account
lookup by the subject email, then the `is_active` check; every
`AuthError` on this path is converted into an `HTTPException` with the
error's status code (always 401) and a `WWW-Authenticate: Bearer`
header. -/
def get_current_user (db : DB) (token : TokenStr) (s : Settings)
    (now : Nat) : Except HTTPException Account :=
  if db.isBlacklisted token then
    .error { status_code := 401, detail := "Token has been revoked",
             www_authenticate_bearer := true }
  else
    match verify_token token "access" s now with
    | .error e =>
      .error { status_code := e.status_code, detail := e.message,
               www_authenticate_bearer := true }
    | .ok token_data =>
      match db.users.find? (fun u => some u.email == token_data.email) with
      | none =>
        .error { status_code := 401, detail := "User not found",
                 www_authenticate_bearer := true }
      | some user =>
        if !user.is_active then
          .error { status_code := 401, detail := "User account is disabled",
                   www_authenticate_bearer := true }
        else .ok user

/-- Embedding of `register` (`app/api/auth.py` lines 112-158).  The
handler performs two separate database interactions: the uniqueness
pre-check and the commit; a concurrent registration may land between
them, so the state seen by each is a separate argument (`dbCheck`,
`dbCommit`) and the sequential call is `register db db …`.  When the
pre-check finds the email the handler raises 400 without writing; when
the commit itself hits the unique-email constraint the `IntegrityError`
branch rolls the session back and raises the same 400. -/
def register (dbCheck dbCommit : DB) (user_in : UserCreate) (s : Settings)
    (now : Nat) : DB × Except HTTPException Token :=
  match dbCheck.findUserByEmail user_in.email with
  | some _ =>
    (dbCommit, .error { status_code := 400, detail := "Email already registered",
                        www_authenticate_bearer := false })
  | none =>
    if (dbCommit.findUserByEmail user_in.email).isSome then
      (dbCommit, .error { status_code := 400, detail := "Email already registered",
                          www_authenticate_bearer := false })
    else
      let user : Account :=
        { id := dbCommit.users.length + 1, email := user_in.email,
          name := user_in.name,
          hashed_password := get_password_hash user_in.password,
          is_active := true, created_at := now, updated_at := some now }
      let db2 : DB := { dbCommit with users := dbCommit.users ++ [user] }
      (db2, .ok { access_token :=
                    create_access_token (some user.email)
                      (some (s.ACCESS_TOKEN_EXPIRE_MINUTES * 60)) s now,
                  token_type := "bearer",
                  refresh_token := some (create_refresh_token (some user.email) s now),
                  expires_in := some (s.ACCESS_TOKEN_EXPIRE_MINUTES * 60) })

/-- Embedding of `login` (`app/api/auth.py` lines 161-198): lookup by the
form's username, the combined absent-or-wrong-password check with the
generic message and a `WWW-Authenticate: Bearer` header, then the
`is_active` check whose `HTTPException` carries no headers, then token
issuance identical to `register`. -/
def login (db : DB) (username password : String) (s : Settings)
    (now : Nat) : Except HTTPException Token :=
  match db.findUserByEmail username with
  | none =>
    .error { status_code := 401, detail := "Incorrect email or password",
             www_authenticate_bearer := true }
  | some user =>
    if !verify_password password user.hashed_password then
      .error { status_code := 401, detail := "Incorrect email or password",
               www_authenticate_bearer := true }
    else if !user.is_active then
      .error { status_code := 401, detail := "Account is disabled",
               www_authenticate_bearer := false }
    else
      .ok { access_token :=
              create_access_token (some user.email)
                (some (s.ACCESS_TOKEN_EXPIRE_MINUTES * 60)) s now,
            token_type := "bearer",
            refresh_token := some (create_refresh_token (some user.email) s now),
            expires_in := some (s.ACCESS_TOKEN_EXPIRE_MINUTES * 60) }

/-- Embedding of `refresh_token` (`app/api/auth.py` lines 201-236):
verify with expected type `"refresh"`, re-resolve the account, check
`is_active`, then return a new access token only; every `AuthError` on
this path becomes an `HTTPException` without headers.  The returned dict
has no `refresh_token` key, so the schema fills it with `None`. -/
def refresh_token (db : DB) (refresh_request : TokenStr) (s : Settings)
    (now : Nat) : Except HTTPException Token :=
  match verify_token refresh_request "refresh" s now with
  | .error e =>
    .error { status_code := e.status_code, detail := e.message,
             www_authenticate_bearer := false }
  | .ok token_data =>
    match db.users.find? (fun u => some u.email == token_data.email) with
    | none =>
      .error { status_code := 401, detail := "User not found",
               www_authenticate_bearer := false }
    | some user =>
      if !user.is_active then
        .error { status_code := 401, detail := "User account is disabled",
                 www_authenticate_bearer := false }
      else
        .ok { access_token :=
                create_access_token (some user.email)
                  (some (s.ACCESS_TOKEN_EXPIRE_MINUTES * 60)) s now,
              token_type := "bearer",
              refresh_token := none,
              expires_in := some (s.ACCESS_TOKEN_EXPIRE_MINUTES * 60) }

/-- An exception the route handler does not catch; it propagates to the
entry point's catch-all handler and becomes a 500 response. -/
inductive UncaughtError where
  | integrityError
deriving DecidableEq, Repr

/-- Embedding of `logout` (`app/api/auth.py` lines 239-258): verify the
token; on `AuthError` return success without writing; otherwise insert
the token string into `blacklisted_tokens` and commit.  The `token`
column is declared `unique=True`, so committing a token that is already
blacklisted raises `IntegrityError`, which the handler's
`except AuthError` clause does not catch. -/
def logout (db : DB) (token : TokenStr) (s : Settings) (now : Nat) :
    Except UncaughtError (DB × String) :=
  match verify_token token "access" s now with
  | .error _ => .ok (db, "Successfully logged out")
  | .ok _ =>
    if db.isBlacklisted token then
      .error .integrityError
    else
      .ok ({ db with blacklisted_tokens := db.blacklisted_tokens ++ [token] },
           "Successfully logged out")

/-- JSON-ish values appearing in a serialized response body. -/
inductive JsonValue where
  | str (s : String)
  | num (n : Nat)
  | boolean (b : Bool)
deriving DecidableEq, Repr

/-- Serialization of an `Account` through the `UserResponse` schema
(`app/schemas/user.py` lines 33-39, with `email` and `name` inherited
from `UserBase`): `model_config from_attributes` picks exactly the
declared fields off the ORM object. -/
def UserResponse.fromAccount (u : Account) : List (String × JsonValue) :=
  [("email", .str u.email), ("name", .str u.name), ("id", .num u.id),
   ("is_active", .boolean u.is_active), ("created_at", .num u.created_at)]

/-- Embedding of `read_users_me` (`app/api/auth.py` lines 261-266):
resolve the current user, then serialize it via
`response_model=UserResponse`. -/
def read_users_me (db : DB) (token : TokenStr) (s : Settings) (now : Nat) :
    Except HTTPException (List (String × JsonValue)) :=
  (get_current_user db token s now).map UserResponse.fromAccount

/-- Python's `str.split(",")` on the character list: every comma starts a
new (possibly empty) segment, and the split of the empty string is one
empty segment. -/
def pySplitComma : List Char → List (List Char)
  | [] => [[]]
  | c :: cs =>
    match pySplitComma cs with
    | [] => [[c]]
    | r :: rs => if c = ',' then [] :: r :: rs else (c :: r) :: rs

/-- Python's `str.strip()`: drop leading and trailing whitespace. -/
def pyStrip (cs : List Char) : List Char :=
  ((cs.dropWhile Char.isWhitespace).reverse.dropWhile Char.isWhitespace).reverse

/-- Embedding of `Settings.CORS_ORIGINS_LIST` (`app/core/config.py` lines
39-43): split the raw origin string on commas and strip whitespace from
each entry. -/
def CORS_ORIGINS_LIST (s : Settings) : List String :=
  (pySplitComma s.BACKEND_CORS_ORIGINS.toList).map (fun cs => String.mk (pyStrip cs))

/-- Embedding of the `allow_origins` argument that `app/main.py` lines
52-58 actually pass to the CORS middleware:
`[str(origin) for origin in settings.BACKEND_CORS_ORIGINS]` iterates the
raw string character by character, so each "origin" is a one-character
string. -/
def main_allow_origins (s : Settings) : List String :=
  s.BACKEND_CORS_ORIGINS.toList.map (fun c => String.mk [c])

/-- Number of `users` rows holding a given email. -/
def countEmail (db : DB) (e : String) : Nat :=
  (db.users.filter (fun u => u.email == e)).length

/-- The status code of a failed `verify_token`, `none` on success. -/
def errorStatus : Except AuthError TokenData → Option Nat
  | .error e => some e.status_code
  | .ok _ => none

/-- The status code of a failed route handler, `none` on success. -/
def httpErrorStatus : Except HTTPException Token → Option Nat
  | .error e => some e.status_code
  | .ok _ => none

/-- A concrete settings value with the defaults of `app/core/config.py`. -/
def demoSettings : Settings :=
  { SECRET_KEY := "supersecret", ALGORITHM := "HS256",
    ACCESS_TOKEN_EXPIRE_MINUTES := 30, REFRESH_TOKEN_EXPIRE_DAYS := 7,
    BACKEND_CORS_ORIGINS := "http://a.com, http://b.com" }

/-- An empty database. -/
def dbEmpty : DB := { users := [], blacklisted_tokens := [] }

/-- A concrete registration payload. -/
def demoUserCreate : UserCreate :=
  { email := "alice@example.com", name := "Alice", password := "password123" }

/-- A concrete active account. -/
def demoAccount : Account :=
  { id := 1, email := "alice@example.com", name := "Alice",
    hashed_password := get_password_hash "password123",
    is_active := true, created_at := 500, updated_at := some 500 }

/-- A concrete disabled account. -/
def demoDisabled : Account :=
  { id := 2, email := "bob@example.com", name := "Bob",
    hashed_password := get_password_hash "hunter2aa",
    is_active := false, created_at := 600, updated_at := some 600 }

/-- A concrete access token issued at time 1000 (expiry 2800). -/
def demoAccessToken : TokenStr :=
  create_access_token (some "alice@example.com") none demoSettings 1000

/-- Claim C1: the spec says logout always returns success, in particular
twice in succession with the same valid access token.  On the code the
first call succeeds and blacklists the token, but the second call passes
verification again, inserts the same string into the unique `token`
column, and the resulting `IntegrityError` is not caught by the
handler's `except AuthError`, so it escapes to the caller (a 500 via the
entry point's catch-all) instead of a success message. -/
theorem logout_second_call_raises_integrity_error :
    logout dbEmpty demoAccessToken demoSettings 1000 =
      .ok ({ users := [], blacklisted_tokens := [demoAccessToken] },
           "Successfully logged out")
  ∧ logout { users := [], blacklisted_tokens := [demoAccessToken] }
      demoAccessToken demoSettings 1000 = .error .integrityError := by
  constructor <;> rfl

/-- Claim C8: the spec says the CORS middleware receives the parsed
origin list (split on commas, entries trimmed).  The code iterates the
raw `BACKEND_CORS_ORIGINS` string, so `allow_origins` is the list of its
individual characters; `Settings.CORS_ORIGINS_LIST` is never used. -/
theorem cors_allow_origins_uses_raw_string :
    CORS_ORIGINS_LIST demoSettings = ["http://a.com", "http://b.com"]
  ∧ main_allow_origins demoSettings ≠ CORS_ORIGINS_LIST demoSettings
  ∧ main_allow_origins demoSettings =
      ["h", "t", "t", "p", ":", "/", "/", "a", ".", "c", "o", "m", ",",
       " ", "h", "t", "t", "p", ":", "/", "/", "b", ".", "c", "o", "m"] := by
  refine ⟨by decide, by decide, by decide⟩

/-- Claim C9 (counterexample): the claim lists `updated_at` among the
fields of the `UserResponse` shape, but the schema declares only
`email`, `name`, `id`, `is_active`, `created_at`; serializing a concrete
account yields no `updated_at` key. -/
theorem userResponse_updated_at_missing_counterexample :
    "updated_at" ∉ (UserResponse.fromAccount demoAccount).map Prod.fst := by
  decide

/-- Claim C9 (amended): for every account, the `UserResponse` shape
contains exactly the fields `email`, `name`, `id`, `is_active`,
`created_at` — no `updated_at` — and never contains the password hash:
no `hashed_password` key exists and the serialization does not depend on
the `hashed_password` column at all. -/
theorem userResponse_fields_exact (u : Account) :
    (UserResponse.fromAccount u).map Prod.fst =
      ["email", "name", "id", "is_active", "created_at"]
  ∧ "hashed_password" ∉ (UserResponse.fromAccount u).map Prod.fst
  ∧ ∀ h, UserResponse.fromAccount { u with hashed_password := h } =
      UserResponse.fromAccount u := by
  refine ⟨rfl, ?_, fun h => rfl⟩
  intro hmem
  simp [UserResponse.fromAccount] at hmem

/-- Every error produced by `verify_token` carries status code 401: the
`AuthError` constructor is only ever invoked with its default status. -/
theorem verify_token_error_status (token : TokenStr) (et : String)
    (s : Settings) (now : Nat) (e : AuthError)
    (h : verify_token token et s now = .error e) : e.status_code = 401 := by
  unfold verify_token at h
  split at h
  · cases Except.error.inj h; rfl
  · split at h
    · cases Except.error.inj h; rfl
    · split at h
      · cases Except.error.inj h; rfl
      · exact Except.noConfusion h

/-- Verification with an expected type different from the token's type
claim fails with a 401, whatever the key, algorithm and expiry. -/
theorem verify_token_wrong_type (psub ty : Option String) (pexp piat : Nat)
    (k a et : String) (s : Settings) (now : Nat)
    (hne : (ty != some et) = true) :
    errorStatus (verify_token (.signed ⟨psub, ty, pexp, piat⟩ k a) et s now) =
      some 401 := by
  unfold verify_token jwt_decode
  by_cases hk : (k == s.SECRET_KEY && a == s.ALGORITHM) = true
  · by_cases hexp : pexp < now
    · simp [hk, hexp, errorStatus]
    · simp [hk, hexp, hne, errorStatus]
  · simp [hk, errorStatus]

/-- Claim C2: current-user resolution checks, in order: blacklist
membership (rejecting with "Token has been revoked"), token verification
with expected type "access" (propagating the failure message), account
lookup by the subject email (rejecting with "User not found"), and the
active flag (rejecting with "User account is disabled"); otherwise it
returns the account, and every rejection is a 401 carrying a
`WWW-Authenticate: Bearer` header. -/
theorem get_current_user_resolution_order (db : DB) (token : TokenStr)
    (s : Settings) (now : Nat) :
    (db.isBlacklisted token = true →
      get_current_user db token s now =
        .error { status_code := 401, detail := "Token has been revoked",
                 www_authenticate_bearer := true })
  ∧ (∀ e, db.isBlacklisted token = false →
      verify_token token "access" s now = .error e →
      get_current_user db token s now =
        .error { status_code := e.status_code, detail := e.message,
                 www_authenticate_bearer := true })
  ∧ (∀ td, db.isBlacklisted token = false →
      verify_token token "access" s now = .ok td →
      db.users.find? (fun u => some u.email == td.email) = none →
      get_current_user db token s now =
        .error { status_code := 401, detail := "User not found",
                 www_authenticate_bearer := true })
  ∧ (∀ td u, db.isBlacklisted token = false →
      verify_token token "access" s now = .ok td →
      db.users.find? (fun u => some u.email == td.email) = some u →
      u.is_active = false →
      get_current_user db token s now =
        .error { status_code := 401, detail := "User account is disabled",
                 www_authenticate_bearer := true })
  ∧ (∀ td u, db.isBlacklisted token = false →
      verify_token token "access" s now = .ok td →
      db.users.find? (fun u => some u.email == td.email) = some u →
      u.is_active = true →
      get_current_user db token s now = .ok u)
  ∧ (∀ e, get_current_user db token s now = .error e →
      e.status_code = 401 ∧ e.www_authenticate_bearer = true) := by
  refine ⟨?_, ?_, ?_, ?_, ?_, ?_⟩
  · intro hbl
    simp [get_current_user, hbl]
  · intro e hbl hv
    simp [get_current_user, hbl, hv]
  · intro td hbl hv hf
    simp [get_current_user, hbl, hv, hf]
  · intro td u hbl hv hf ha
    simp [get_current_user, hbl, hv, hf, ha]
  · intro td u hbl hv hf ha
    simp [get_current_user, hbl, hv, hf, ha]
  · intro e he
    unfold get_current_user at he
    split at he
    · cases Except.error.inj he; exact ⟨rfl, rfl⟩
    · split at he
      · next e2 hv =>
          cases Except.error.inj he
          exact ⟨verify_token_error_status token "access" s now e2 hv, rfl⟩
      · next td hv =>
          split at he
          · cases Except.error.inj he; exact ⟨rfl, rfl⟩
          · split at he
            · cases Except.error.inj he; exact ⟨rfl, rfl⟩
            · exact Except.noConfusion he

/-- Claim C2 witness: a blacklisted token is rejected as revoked. -/
theorem get_current_user_resolution_order_witness :
    get_current_user { users := [], blacklisted_tokens := [demoAccessToken] }
      demoAccessToken demoSettings 1000 =
      .error { status_code := 401, detail := "Token has been revoked",
               www_authenticate_bearer := true } :=
  (get_current_user_resolution_order
    { users := [], blacklisted_tokens := [demoAccessToken] }
    demoAccessToken demoSettings 1000).1 (by decide)

/-- Claim C3: verifying a freshly created access token with subject `e`
against expected type "access", at any time before its expiry, succeeds
with `TokenData` whose email is `e` and whose type is "access"; and
presenting that fresh token to current-user resolution returns exactly
the account found under that email (when it is not blacklisted and the
account is active), an account whose email is `e`. -/
theorem access_token_roundtrip (e : String) (s : Settings) (now now2 : Nat)
    (hfresh : now2 ≤ now + s.ACCESS_TOKEN_EXPIRE_MINUTES * 60) :
    verify_token (create_access_token (some e) none s now) "access" s now2 =
      .ok { email := some e, user_id := none, token_type := some "access" }
  ∧ ∀ (db : DB) (u : Account),
      db.isBlacklisted (create_access_token (some e) none s now) = false →
      db.users.find? (fun x => some x.email == some e) = some u →
      u.is_active = true →
      get_current_user db (create_access_token (some e) none s now) s now2 = .ok u
        ∧ u.email = e := by
  have hv : verify_token (create_access_token (some e) none s now) "access" s now2 =
      .ok { email := some e, user_id := none, token_type := some "access" } := by
    unfold create_access_token verify_token jwt_decode
    simp [Nat.not_lt.mpr hfresh]
  refine ⟨hv, ?_⟩
  intro db u hbl hf ha
  have hf2 : List.find? (fun x => x.email == e) db.users = some u := by
    simpa using hf
  constructor
  · simp [get_current_user, hbl, hv, hf2, ha]
  · have := List.find?_some hf
    simpa using this

/-- Claim C3 witness: a token created at time 1000 verifies at time 2000
and resolves to the matching account. -/
theorem access_token_roundtrip_witness :
    verify_token (create_access_token (some "alice@example.com") none demoSettings 1000)
        "access" demoSettings 2000 =
      .ok { email := some "alice@example.com", user_id := none,
            token_type := some "access" }
  ∧ get_current_user { users := [demoAccount], blacklisted_tokens := [] }
      (create_access_token (some "alice@example.com") none demoSettings 1000)
      demoSettings 2000 = .ok demoAccount :=
  ⟨(access_token_roundtrip "alice@example.com" demoSettings 1000 2000 (by decide)).1,
   ((access_token_roundtrip "alice@example.com" demoSettings 1000 2000 (by decide)).2
      { users := [demoAccount], blacklisted_tokens := [] } demoAccount
      (by decide) (by decide) rfl).1⟩

/-- Claim C4: a token whose type claim is "access" always fails
verification against expected type "refresh" with a 401, and
symmetrically, irrespective of subject, expiry, signing key or
algorithm (so also for invalidly signed tokens); a string that is not a
JWT at all fails too. -/
theorem cross_type_token_rejected (psub : Option String) (pexp piat : Nat)
    (k a : String) (s : Settings) (now : Nat) :
    errorStatus (verify_token (.signed ⟨psub, some "access", pexp, piat⟩ k a)
      "refresh" s now) = some 401
  ∧ errorStatus (verify_token (.signed ⟨psub, some "refresh", pexp, piat⟩ k a)
      "access" s now) = some 401
  ∧ ∀ raw, errorStatus (verify_token (.malformed raw) "refresh" s now) = some 401 := by
  refine ⟨?_, ?_, ?_⟩
  · exact verify_token_wrong_type psub (some "access") pexp piat k a "refresh" s now
      (by decide)
  · exact verify_token_wrong_type psub (some "refresh") pexp piat k a "access" s now
      (by decide)
  · intro raw
    rfl

/-- Appending an account with the given email adds one to its row count. -/
theorem countEmail_append_one (db : DB) (u : Account) (e : String)
    (hu : u.email = e) :
    countEmail { db with users := db.users ++ [u] } e = countEmail db e + 1 := by
  unfold countEmail
  simp [List.filter_append, hu]

/-- An email absent from the lookup has no rows. -/
theorem countEmail_zero_of_find_none (db : DB) (e : String)
    (h : db.findUserByEmail e = none) : countEmail db e = 0 := by
  unfold DB.findUserByEmail at h
  rw [List.find?_eq_none] at h
  unfold countEmail
  rw [List.length_eq_zero, List.filter_eq_nil_iff]
  exact h

/-- An email the lookup finds has at least one row. -/
theorem countEmail_pos_of_find_isSome (db : DB) (e : String)
    (h : (db.findUserByEmail e).isSome = true) : 1 ≤ countEmail db e := by
  unfold DB.findUserByEmail at h
  rw [List.find?_isSome] at h
  obtain ⟨x, hx, hpx⟩ := h
  have hmem : x ∈ db.users.filter (fun u => u.email == e) :=
    List.mem_filter.mpr ⟨hx, hpx⟩
  exact List.length_pos.mpr (List.ne_nil_of_mem hmem)

/-- An email with at least one row is found by the lookup. -/
theorem find_isSome_of_countEmail_pos (db : DB) (e : String)
    (h : 1 ≤ countEmail db e) : (db.findUserByEmail e).isSome = true := by
  unfold countEmail at h
  unfold DB.findUserByEmail
  rw [List.find?_isSome]
  rcases hl : db.users.filter (fun u => u.email == e) with _ | ⟨x, xs⟩
  · rw [hl] at h; simp at h
  · have hx : x ∈ db.users.filter (fun u => u.email == e) := by
      rw [hl]; exact List.mem_cons_self x xs
    have hm := List.mem_filter.mp hx
    exact ⟨x, hm.1, hm.2⟩

/-- Claim C5: registering an email that already has an account fails
with the 400 "Email already registered" and leaves the database
untouched; when the duplicate only appears at commit time (a concurrent
registration between the pre-check and the commit), the caught
`IntegrityError` yields the same 400 after rollback; and after two
successive registrations with the same email, exactly one account row
holds that email. -/
theorem register_duplicate_email_conflict (db : DB) (uin uin2 : UserCreate)
    (s : Settings) (now now2 : Nat) :
    ((db.findUserByEmail uin.email).isSome = true →
      register db db uin s now =
        (db, .error { status_code := 400, detail := "Email already registered",
                      www_authenticate_bearer := false }))
  ∧ (∀ dbCheck, dbCheck.findUserByEmail uin.email = none →
      (db.findUserByEmail uin.email).isSome = true →
      register dbCheck db uin s now =
        (db, .error { status_code := 400, detail := "Email already registered",
                      www_authenticate_bearer := false }))
  ∧ (uin2.email = uin.email → countEmail db uin.email ≤ 1 →
      countEmail (register (register db db uin s now).1
        (register db db uin s now).1 uin2 s now2).1 uin.email = 1) := by
  refine ⟨?_, ?_, ?_⟩
  · intro h
    obtain ⟨u, hu⟩ := Option.isSome_iff_exists.mp h
    simp [register, hu]
  · intro dbCheck hc h
    obtain ⟨u, hu⟩ := Option.isSome_iff_exists.mp h
    simp [register, hc, hu]
  · intro hsame hcount
    have hdup : ∀ (dbX : DB) (uinX : UserCreate) (nowX : Nat) (uX : Account),
        dbX.findUserByEmail uinX.email = some uX →
        (register dbX dbX uinX s nowX).1 = dbX := by
      intro dbX uinX nowX uX huX
      simp [register, huX]
    by_cases hfind : db.findUserByEmail uin.email = none
    · have hstep : (register db db uin s now).1 =
          { db with users := db.users ++
              [{ id := db.users.length + 1, email := uin.email, name := uin.name,
                 hashed_password := get_password_hash uin.password,
                 is_active := true, created_at := now, updated_at := some now }] } := by
        simp [register, hfind]
      have hcount1 : countEmail (register db db uin s now).1 uin.email = 1 := by
        rw [hstep, countEmail_append_one db _ uin.email rfl,
            countEmail_zero_of_find_none db uin.email hfind]
      have hfound : ((register db db uin s now).1.findUserByEmail uin.email).isSome
          = true :=
        find_isSome_of_countEmail_pos _ _ (le_of_eq hcount1.symm)
      obtain ⟨u, hu⟩ := Option.isSome_iff_exists.mp hfound
      have hu2 : (register db db uin s now).1.findUserByEmail uin2.email = some u := by
        rw [hsame]; exact hu
      rw [hdup _ uin2 now2 u hu2, hcount1]
    · have hsome : (db.findUserByEmail uin.email).isSome = true := by
        rcases hopt : db.findUserByEmail uin.email with _ | u
        · exact absurd hopt hfind
        · rfl
      obtain ⟨u, hu⟩ := Option.isSome_iff_exists.mp hsome
      have hu2 : db.findUserByEmail uin2.email = some u := by
        rw [hsame]; exact hu
      rw [hdup db uin now u hu, hdup db uin2 now2 u hu2]
      exact Nat.le_antisymm hcount (countEmail_pos_of_find_isSome db uin.email hsome)

/-- Claim C5 witness: registering the same email twice into an empty
database leaves exactly one account row for it. -/
theorem register_duplicate_email_conflict_witness :
    countEmail (register (register dbEmpty dbEmpty demoUserCreate demoSettings 1000).1
      (register dbEmpty dbEmpty demoUserCreate demoSettings 1000).1
      demoUserCreate demoSettings 1001).1 demoUserCreate.email = 1 :=
  (register_duplicate_email_conflict dbEmpty demoUserCreate demoUserCreate
    demoSettings 1000 1001).2.2 rfl (by decide)

/-- Claim C6: the observable login response for a nonexistent email and
for an existing email with a non-matching password is identical — the
same 401, the same "Incorrect email or password" detail, the same
`WWW-Authenticate: Bearer` header — across any two database states and
request times. -/
theorem login_failure_indistinguishable (db1 : DB) (email1 pw1 : String)
    (db2 : DB) (email2 pw2 : String) (u : Account) (s : Settings)
    (now1 now2 : Nat)
    (h1 : db1.findUserByEmail email1 = none)
    (h2 : db2.findUserByEmail email2 = some u)
    (h3 : verify_password pw2 u.hashed_password = false) :
    login db1 email1 pw1 s now1 = login db2 email2 pw2 s now2
  ∧ login db1 email1 pw1 s now1 =
      .error { status_code := 401, detail := "Incorrect email or password",
               www_authenticate_bearer := true } := by
  have ha : login db1 email1 pw1 s now1 =
      .error { status_code := 401, detail := "Incorrect email or password",
               www_authenticate_bearer := true } := by
    simp [login, h1]
  have hb : login db2 email2 pw2 s now2 =
      .error { status_code := 401, detail := "Incorrect email or password",
               www_authenticate_bearer := true } := by
    simp [login, h2, h3]
  exact ⟨ha.trans hb.symm, ha⟩

/-- Claim C6 witness: an unknown email and a wrong password for a known
account produce the very same response. -/
theorem login_failure_indistinguishable_witness :
    login dbEmpty "ghost@example.com" "whatever12" demoSettings 1000 =
      login { users := [demoAccount], blacklisted_tokens := [] }
        "alice@example.com" "wrongpass9" demoSettings 1000 :=
  (login_failure_indistinguishable dbEmpty "ghost@example.com" "whatever12"
    { users := [demoAccount], blacklisted_tokens := [] }
    "alice@example.com" "wrongpass9" demoAccount demoSettings 1000 1000
    (by decide) (by decide) (by decide)).1

/-- Presenting an access-type token to the refresh operation always
fails with a 401, whatever the key, algorithm and expiry it carries. -/
theorem refresh_with_access_type_fails (db : DB) (psub : Option String)
    (pexp piat : Nat) (k a : String) (s : Settings) (now : Nat) :
    httpErrorStatus (refresh_token db (.signed ⟨psub, some "access", pexp, piat⟩ k a)
      s now) = some 401 := by
  have h := verify_token_wrong_type psub (some "access") pexp piat k a "refresh"
    s now (by decide)
  cases hv : verify_token (.signed ⟨psub, some "access", pexp, piat⟩ k a)
      "refresh" s now with
  | ok td => rw [hv] at h; simp [errorStatus] at h
  | error e =>
    rw [hv] at h
    simp only [errorStatus, Option.some_inj] at h
    simp [refresh_token, hv, httpErrorStatus, h]

/-- Claim C7: for a valid refresh token whose subject resolves to an
existing active account, the refresh operation returns a response whose
access token is a fresh access token with the account's email as
subject, token type "bearer", `expires_in` equal to the access lifetime
in seconds, and no refresh token; and refresh with any token created by
`create_access_token` (wrong type, any key or lifetime) fails with a
401. -/
theorem refresh_returns_access_only (db : DB) (tok : TokenStr) (s : Settings)
    (now : Nat) (td : TokenData) (u : Account)
    (hv : verify_token tok "refresh" s now = .ok td)
    (hu : db.users.find? (fun x => some x.email == td.email) = some u)
    (ha : u.is_active = true) :
    (refresh_token db tok s now =
      .ok { access_token := create_access_token (some u.email)
              (some (s.ACCESS_TOKEN_EXPIRE_MINUTES * 60)) s now,
            token_type := "bearer", refresh_token := none,
            expires_in := some (s.ACCESS_TOKEN_EXPIRE_MINUTES * 60) })
  ∧ (create_access_token (some u.email)
      (some (s.ACCESS_TOKEN_EXPIRE_MINUTES * 60)) s now).subClaim = some u.email
  ∧ ∀ (data : Option String) (d : Option Nat) (s2 : Settings) (now2 : Nat),
      httpErrorStatus (refresh_token db (create_access_token data d s2 now2) s now)
        = some 401 := by
  refine ⟨?_, rfl, ?_⟩
  · simp [refresh_token, hv, hu, ha]
  · intro data d s2 now2
    have hred : ∃ pexp, create_access_token data d s2 now2 =
        .signed ⟨data, some "access", pexp, now2⟩ s2.SECRET_KEY s2.ALGORITHM := by
      cases d with
      | none => exact ⟨now2 + s2.ACCESS_TOKEN_EXPIRE_MINUTES * 60, rfl⟩
      | some dd => exact ⟨now2 + dd, rfl⟩
    obtain ⟨pexp, hpe⟩ := hred
    rw [hpe]
    exact refresh_with_access_type_fails db data pexp now2 s2.SECRET_KEY
      s2.ALGORITHM s now

/-- Claim C7 witness: a refresh token issued for the demo account at time
1000 refreshes at time 1500 into an access-only response. -/
theorem refresh_returns_access_only_witness :
    refresh_token { users := [demoAccount], blacklisted_tokens := [] }
      (create_refresh_token (some "alice@example.com") demoSettings 1000)
      demoSettings 1500 =
      .ok { access_token := create_access_token (some "alice@example.com")
              (some (demoSettings.ACCESS_TOKEN_EXPIRE_MINUTES * 60)) demoSettings 1500,
            token_type := "bearer", refresh_token := none,
            expires_in := some (demoSettings.ACCESS_TOKEN_EXPIRE_MINUTES * 60) } :=
  (refresh_returns_access_only { users := [demoAccount], blacklisted_tokens := [] }
    (create_refresh_token (some "alice@example.com") demoSettings 1000)
    demoSettings 1500
    { email := some "alice@example.com", user_id := none,
      token_type := some "refresh" }
    demoAccount rfl rfl rfl).1

/-- Claim C10: in login the `is_active` check runs only after password
verification: for a disabled account, a wrong password yields the
generic "Incorrect email or password" 401 with a `WWW-Authenticate:
Bearer` header, and only the correct password yields the "Account is
disabled" 401, which carries no such header. -/
theorem login_disabled_checked_after_password (db : DB)
    (email pw1 pw2 : String) (u : Account) (s : Settings) (now1 now2 : Nat)
    (hfind : db.findUserByEmail email = some u)
    (hinactive : u.is_active = false) :
    (verify_password pw1 u.hashed_password = false →
      login db email pw1 s now1 =
        .error { status_code := 401, detail := "Incorrect email or password",
                 www_authenticate_bearer := true })
  ∧ (verify_password pw2 u.hashed_password = true →
      login db email pw2 s now2 =
        .error { status_code := 401, detail := "Account is disabled",
                 www_authenticate_bearer := false }) := by
  constructor
  · intro h
    simp [login, hfind, h]
  · intro h
    simp [login, hfind, h, hinactive]

/-- Claim C10 witness: the demo disabled account rejects a wrong password
with the generic message and its real password with the disabled
message. -/
theorem login_disabled_checked_after_password_witness :
    login { users := [demoDisabled], blacklisted_tokens := [] }
      "bob@example.com" "wrongpass9" demoSettings 1000 =
      .error { status_code := 401, detail := "Incorrect email or password",
               www_authenticate_bearer := true }
  ∧ login { users := [demoDisabled], blacklisted_tokens := [] }
      "bob@example.com" "hunter2aa" demoSettings 1000 =
      .error { status_code := 401, detail := "Account is disabled",
               www_authenticate_bearer := false } :=
  ⟨(login_disabled_checked_after_password
      { users := [demoDisabled], blacklisted_tokens := [] }
      "bob@example.com" "wrongpass9" "hunter2aa" demoDisabled demoSettings
      1000 1000 (by decide) rfl).1 (by decide),
   (login_disabled_checked_after_password
      { users := [demoDisabled], blacklisted_tokens := [] }
      "bob@example.com" "wrongpass9" "hunter2aa" demoDisabled demoSettings
      1000 1000 (by decide) rfl).2 (by decide)⟩

end AuthService
